import Mathlib

/-!
Shallow embedding of the food-ordering platform:

* `src/pricing-service/app.py` — menu and the `/calculate` endpoint
  (`calculate_price`).
* `src/order-service/models.py` / `src/worker-service/models.py` — the
  `OrderStatus` enum and the `Order` row.
* `src/order-service/app.py` — `create_order`, `get_order`,
  `update_order_status`, `cancel_order`, the Redis result cache and the
  RabbitMQ publish step.
* `src/worker-service/worker.py` — `send_confirmation_email`,
  `process_order`, `callback` and the manual ack/nack protocol.

Modelling conventions:

* Python decimal literals (menu prices, the 0.08 tax rate) are embedded as
  exact rationals (`ℚ`); `round(x, 2)` is embedded as round-half-to-even on
  hundredths, the semantics of Python's `round`.
* The Postgres `orders` table is a `List Order`; SQLAlchemy's
  `query(...).filter_by(...).first()` is `List.find?`, and the
  mutate-then-commit of the found row is `updateFirst` (only the first
  matching row changes).
* The Redis cache is an association list from string keys to `Order`
  snapshots.  TTL expiry is not modelled: no claim depends on it and an
  expired key behaves like a deleted one.
* Wall-clock timestamps (`datetime.utcnow()`) are abstract `Nat` instants
  passed in by the environment.
* External outcomes (broker reachability for `publish_to_queue`) are passed
  in as explicit booleans; JSON bodies arriving from the queue are either a
  parsed task or a malformed payload.
-/

attribute [local semireducible] Rat.add Rat.mul Rat.inv Rat.sub Rat.ofScientific

namespace FoodOrdering

/-- The `OrderStatus` enum of `models.py`. -/
inductive OrderStatus where
  | PENDING
  | PROCESSING
  | CONFIRMED
  | PREPARING
  | READY
  | DELIVERED
  | CANCELLED
  deriving DecidableEq, Repr

/-- The `.value` string of each `OrderStatus` member (`models.py`). -/
def statusValue : OrderStatus → String
  | .PENDING => "pending"
  | .PROCESSING => "processing"
  | .CONFIRMED => "confirmed"
  | .PREPARING => "preparing"
  | .READY => "ready"
  | .DELIVERED => "delivered"
  | .CANCELLED => "cancelled"

/-- One entry of the `item_details` list built by `calculate_price`
(`pricing-service/app.py`). -/
structure PricedItem where
  item_id : String
  name : String
  quantity : Nat
  unit_price : ℚ
  subtotal : ℚ
  deriving DecidableEq, Repr

/-- The `Order` row of `models.py`.  `id` is the autoincrement primary key,
`created_at` / `updated_at` are abstract instants. -/
structure Order where
  id : Nat
  order_number : String
  customer_name : String
  customer_email : String
  customer_phone : Option String
  delivery_address : Option String
  items : List PricedItem
  subtotal : ℚ
  tax : ℚ
  total : ℚ
  status : OrderStatus
  notes : Option String
  created_at : Nat
  updated_at : Nat
  deriving DecidableEq, Repr

/-- One menu entry (`MENU_ITEMS` values in `pricing-service/app.py`). -/
structure MenuItem where
  name : String
  price : ℚ
  category : String
  deriving DecidableEq, Repr

/-- The `MENU_ITEMS` table of `pricing-service/app.py`.  The Redis menu cache
layer in front of it always serves exactly these values (it is filled from
this table and falls back to it on a miss), so lookups read the table
directly. -/
def MENU_ITEMS : List (String × MenuItem) :=
  [("burger", { name := "Classic Burger", price := 899/100, category := "main" }),
   ("pizza", { name := "Margherita Pizza", price := 1299/100, category := "main" }),
   ("pasta", { name := "Spaghetti Carbonara", price := 1099/100, category := "main" }),
   ("salad", { name := "Caesar Salad", price := 699/100, category := "appetizer" }),
   ("fries", { name := "French Fries", price := 399/100, category := "side" }),
   ("soda", { name := "Soft Drink", price := 249/100, category := "beverage" }),
   ("water", { name := "Bottled Water", price := 199/100, category := "beverage" }),
   ("cake", { name := "Chocolate Cake", price := 599/100, category := "dessert" })]

/-- Menu lookup by item id. -/
def menuLookup (item_id : String) : Option MenuItem :=
  (MENU_ITEMS.find? (fun e => e.1 == item_id)).map (fun e => e.2)

/-- Round to the nearest integer, ties to even: the semantics of Python's
`round` on the exact values arising here. -/
def roundHalfEven (q : ℚ) : ℤ :=
  if Int.fract q < 1/2 then ⌊q⌋
  else if 1/2 < Int.fract q then ⌊q⌋ + 1
  else if ⌊q⌋ % 2 = 0 then ⌊q⌋ else ⌊q⌋ + 1

/-- Python's `round(x, 2)`: round to hundredths. -/
def round2 (q : ℚ) : ℚ := (roundHalfEven (100 * q) : ℚ) / 100

/-- One requested line item of a `/calculate` or create-order body:
`item_id` plus `quantity` (`item.get('quantity', 1)` already applied). -/
structure ItemReq where
  item_id : String
  quantity : Nat
  deriving DecidableEq, Repr

/-- The JSON body returned by a successful `/calculate` call. -/
structure PricingResult where
  items : List PricedItem
  subtotal : ℚ
  tax : ℚ
  total : ℚ
  deriving DecidableEq, Repr

/-- The accumulation loop of `calculate_price`: running unrounded total plus
the `item_details` list, or `none` when an item id is on neither the cache
nor the menu (the 404 branch). -/
def calcItems : List ItemReq → Option (ℚ × List PricedItem)
  | [] => some (0, [])
  | req :: rest =>
    match menuLookup req.item_id with
    | none => none
    | some mi =>
      match calcItems rest with
      | none => none
      | some (t, det) =>
        some (mi.price * req.quantity + t,
          { item_id := req.item_id, name := mi.name, quantity := req.quantity,
            unit_price := mi.price,
            subtotal := round2 (mi.price * req.quantity) } :: det)

/-- `calculate_price` of `pricing-service/app.py`: 8% sales tax on the
unrounded item total, all three aggregates rounded to cents in the
response. -/
def calculate_price (items : List ItemReq) : Option PricingResult :=
  match calcItems items with
  | none => none
  | some (total, det) =>
    let tax := total * (8/100)
    let grand_total := total + tax
    some { items := det, subtotal := round2 total, tax := round2 tax,
           total := round2 grand_total }

/-- The Redis order cache: keys to serialized `Order` snapshots. -/
abbrev Cache := List (String × Order)

/-- `redis_client.get key`. -/
def cacheGet (c : Cache) (k : String) : Option Order :=
  (c.find? (fun e => e.1 == k)).map (fun e => e.2)

/-- `redis_client.setex key ttl value` (TTL not modelled). -/
def cacheSet (c : Cache) (k : String) (v : Order) : Cache :=
  (k, v) :: c.filter (fun e => e.1 != k)

/-- `redis_client.delete key`. -/
def cacheDelete (c : Cache) (k : String) : Cache :=
  c.filter (fun e => e.1 != k)

/-- The `f"order:{order_number}"` cache key of `order-service/app.py`. -/
def cacheKey (order_number : String) : String := "order:" ++ order_number

/-- Database plus Redis state seen by the order service. -/
structure ServiceState where
  store : List Order
  cache : Cache
  deriving DecidableEq, Repr

/-- The relevant fields of an order-service JSON response: HTTP code, the
`order` field when the body carries one, the `queued` flag of creation, the
`cached` flag of reads, and `error` / `message` texts. -/
structure ApiResponse where
  code : Nat
  order : Option Order := none
  queued : Option Bool := none
  cached : Option Bool := none
  error : Option String := none
  message : Option String := none
  deriving DecidableEq, Repr

/-- `session.query(Order).filter_by(order_number=..).first()`. -/
def findByNumber (store : List Order) (num : String) : Option Order :=
  store.find? (fun o => o.order_number == num)

/-- `session.query(Order).filter_by(id=..).first()`. -/
def findById (store : List Order) (order_id : Nat) : Option Order :=
  store.find? (fun o => o.id == order_id)

/-- Mutate the first row matching `p` and commit: the effect of assigning to
the object returned by `.first()` and committing the session. -/
def updateFirst (p : Order → Bool) (f : Order → Order) : List Order → List Order
  | [] => []
  | o :: rest => if p o then f o :: rest else o :: updateFirst p f rest

/-- Row predicate for a `filter_by(order_number=..)` lookup. -/
def numMatch (num : String) : Order → Bool := fun o => o.order_number == num

/-- Row predicate for a `filter_by(id=..)` lookup. -/
def idMatch (order_id : Nat) : Order → Bool := fun o => o.id == order_id

/-- `order.status = s; order.updated_at = datetime.utcnow(); session.commit()`. -/
def setStatusNow (s : OrderStatus) (now : Nat) : Order → Order :=
  fun o => { o with status := s, updated_at := now }

/-- Status of the row a `filter_by(id=..)` lookup returns. -/
def statusOfId (store : List Order) (order_id : Nat) : Option OrderStatus :=
  (findById store order_id).map (fun o => o.status)

/-- Status of the row a `filter_by(order_number=..)` lookup returns. -/
def statusOfNumber (store : List Order) (num : String) : Option OrderStatus :=
  (findByNumber store num).map (fun o => o.status)

/-- Validated create-order request body (`POST /orders`).  Missing optional
JSON fields are `none`; a missing required field arrives as the empty
string / empty list, which Python's falsiness check rejects. -/
structure CreateRequest where
  customer_name : String
  customer_email : String
  customer_phone : Option String
  delivery_address : Option String
  items : List ItemReq
  notes : Option String
  deriving DecidableEq, Repr

/-- `create_order` of `order-service/app.py`.  `publish_ok` is the boolean
returned by `publish_to_queue` (false when the broker is unreachable: the
exception is caught and returned as `False`); `order_number` is the
generated number, `next_id` the id the database assigns, `now` the clock.
On success the order is committed, the confirmation task publish is
attempted, the snapshot is written through to the cache, and the response
reports `queued` = the publish outcome with HTTP 201. -/
def create_order (st : ServiceState) (data : CreateRequest) (publish_ok : Bool)
    (order_number : String) (next_id : Nat) (now : Nat) :
    ServiceState × ApiResponse :=
  if data.customer_name = "" ∨ data.customer_email = "" ∨ data.items = [] then
    (st, { code := 400, error := some "Missing required field" })
  else
    match calculate_price data.items with
    | none => (st, { code := 404, error := some "Unable to calculate pricing" })
    | some pricing =>
      let order : Order :=
        { id := next_id, order_number := order_number,
          customer_name := data.customer_name,
          customer_email := data.customer_email,
          customer_phone := data.customer_phone,
          delivery_address := data.delivery_address,
          items := pricing.items, subtotal := pricing.subtotal,
          tax := pricing.tax, total := pricing.total,
          status := OrderStatus.PENDING, notes := data.notes,
          created_at := now, updated_at := now }
      ({ store := st.store ++ [order],
         cache := cacheSet st.cache (cacheKey order_number) order },
       { code := 201, message := some "Order created successfully",
         order := some order, queued := some publish_ok })

/-- `get_order` of `order-service/app.py`: cache hit returns the snapshot
with `cached = true`; a miss reads the store, fills the cache, and returns
`cached = false`; an unknown number is 404. -/
def get_order (st : ServiceState) (order_number : String) :
    ServiceState × ApiResponse :=
  match cacheGet st.cache (cacheKey order_number) with
  | some snapshot =>
    (st, { code := 200, order := some snapshot, cached := some true })
  | none =>
    match findByNumber st.store order_number with
    | none => (st, { code := 404, error := some "Order not found" })
    | some o =>
      ({ st with cache := cacheSet st.cache (cacheKey order_number) o },
       { code := 200, order := some o, cached := some false })

/-- `update_order_status` of `order-service/app.py` (`PATCH
/orders/<num>/status`), after the status string has parsed: look the row up,
set the status and `updated_at`, commit, delete the cache key, and return
the updated order. -/
def update_order_status (st : ServiceState) (order_number : String)
    (new_status : OrderStatus) (now : Nat) : ServiceState × ApiResponse :=
  match findByNumber st.store order_number with
  | none => (st, { code := 404, error := some "Order not found" })
  | some o =>
    ({ store := updateFirst (numMatch order_number) (setStatusNow new_status now)
          st.store,
       cache := cacheDelete st.cache (cacheKey order_number) },
     { code := 200, message := some "Order status updated",
       order := some (setStatusNow new_status now o) })

/-- `cancel_order` of `order-service/app.py` (`DELETE /orders/<num>`): a
DELIVERED or CANCELLED order is rejected with 400 and nothing changes;
otherwise the status becomes CANCELLED, the commit happens, the cache key is
deleted, and the response carries only a message. -/
def cancel_order (st : ServiceState) (order_number : String) (now : Nat) :
    ServiceState × ApiResponse :=
  match findByNumber st.store order_number with
  | none => (st, { code := 404, error := some "Order not found" })
  | some o =>
    if o.status = OrderStatus.DELIVERED ∨ o.status = OrderStatus.CANCELLED then
      (st, { code := 400,
             error := some ("Cannot cancel order with status: "
               ++ statusValue o.status) })
    else
      ({ store := updateFirst (numMatch order_number)
            (setStatusNow OrderStatus.CANCELLED now) st.store,
         cache := cacheDelete st.cache (cacheKey order_number) },
       { code := 200, message := some "Order cancelled successfully" })

/-- `send_confirmation_email` of `worker-service/worker.py`: prints, sleeps,
and unconditionally returns `True`. -/
def send_confirmation_email : Bool := true

/-- `process_order` of `worker-service/worker.py`: re-read the order by id;
not found returns `False`; otherwise set PROCESSING and commit, send the
confirmation email, and on email success set CONFIRMED, commit and return
`True` (on email failure return `False` with the order left PROCESSING). -/
def process_order (store : List Order) (order_id : Nat) (now : Nat) :
    List Order × Bool :=
  match findById store order_id with
  | none => (store, false)
  | some _ =>
    let store1 := updateFirst (idMatch order_id)
      (setStatusNow OrderStatus.PROCESSING now) store
    let email_sent := send_confirmation_email
    if email_sent then
      (updateFirst (idMatch order_id) (setStatusNow OrderStatus.CONFIRMED now)
        store1, true)
    else
      (store1, false)

/-- The parsed fields of a confirmation-task message. -/
structure TaskMessage where
  order_id : Nat
  order_number : String
  customer_email : String
  total : ℚ
  deriving DecidableEq, Repr

/-- A raw queue message body: either valid JSON parsing to a task, or a
payload `json.loads` rejects. -/
inductive QueueBody where
  | malformed
  | task (t : TaskMessage)
  deriving DecidableEq, Repr

/-- The worker's manual acknowledgment decision for one delivery. -/
inductive AckAction where
  | ack
  | nack_requeue
  deriving DecidableEq, Repr

/-- `callback` of `worker-service/worker.py`: a body `json.loads` rejects is
ACKed (removed from the queue); a parsed task runs `process_order`, ACKing
on success and NACKing with `requeue=True` on failure. -/
def callback (store : List Order) (body : QueueBody) (now : Nat) :
    List Order × AckAction :=
  match body with
  | .malformed => (store, .ack)
  | .task t =>
    let result := process_order store t.order_id now
    if result.2 then (result.1, .ack) else (result.1, .nack_requeue)

/-- Store after `n` deliveries of the same body to `callback`, all at
instant `now` (at-least-once redelivery of one task). -/
def deliver (store : List Order) (body : QueueBody) (now : Nat) :
    Nat → List Order
  | 0 => store
  | n + 1 => (callback (deliver store body now n) body now).1

/-- Ack decision the worker takes on delivery number `n + 1` of the same
body. -/
def nthAction (store : List Order) (body : QueueBody) (now : Nat) (n : Nat) :
    AckAction :=
  (callback (deliver store body now n) body now).2

/-- A body that is never removed from the queue: every delivery is NACKed
with `requeue=True`, so the broker may redeliver it without bound. -/
def neverDiscarded (store : List Order) (body : QueueBody) (now : Nat) : Prop :=
  ∀ n : Nat, nthAction store body now n = AckAction.nack_requeue

end FoodOrdering

namespace FoodOrdering

/-! ### Generic lemmas about row updates and lookups -/

theorem updateFirst_comp (p : Order → Bool) (f g : Order → Order)
    (hp : ∀ o, p o = true → p (g o) = true) :
    ∀ l : List Order,
      updateFirst p f (updateFirst p g l) = updateFirst p (fun o => f (g o)) l := by
  intro l
  induction l with
  | nil => rfl
  | cons o rest ih =>
    by_cases hpo : p o = true
    · simp only [updateFirst, hpo, if_true, hp o hpo]
    · simp only [updateFirst, hpo, if_false, Bool.not_eq_true] at *
      simp only [updateFirst, hpo, Bool.false_eq_true, if_false, ih]

theorem find?_updateFirst (p : Order → Bool) (f : Order → Order)
    (hp : ∀ o, p o = true → p (f o) = true) :
    ∀ l : List Order, (updateFirst p f l).find? p = (l.find? p).map f := by
  intro l
  induction l with
  | nil => rfl
  | cons o rest ih =>
    by_cases hpo : p o = true
    · simp only [updateFirst, hpo, if_true, List.find?_cons_of_pos _ (hp o hpo),
        List.find?_cons_of_pos _ hpo, Option.map_some']
    · have hpo' : ¬ p o = true := hpo
      simp only [updateFirst, hpo, Bool.false_eq_true, if_false,
        List.find?_cons_of_neg _ hpo', ih]

theorem setStatusNow_keeps_id (s : OrderStatus) (now i : Nat) (o : Order)
    (h : idMatch i o = true) : idMatch i (setStatusNow s now o) = true := h

theorem setStatusNow_keeps_number (s : OrderStatus) (now : Nat) (num : String)
    (o : Order) (h : numMatch num o = true) :
    numMatch num (setStatusNow s now o) = true := h

theorem setStatusNow_collapse (s1 s2 : OrderStatus) (now : Nat) (o : Order) :
    setStatusNow s2 now (setStatusNow s1 now o) = setStatusNow s2 now o := rfl

theorem findById_updateFirst (store : List Order) (i : Nat) (s : OrderStatus)
    (now : Nat) :
    findById (updateFirst (idMatch i) (setStatusNow s now) store) i
      = (findById store i).map (setStatusNow s now) :=
  find?_updateFirst (idMatch i) (setStatusNow s now)
    (setStatusNow_keeps_id s now i) store

theorem findByNumber_updateFirst (store : List Order) (num : String)
    (s : OrderStatus) (now : Nat) :
    findByNumber (updateFirst (numMatch num) (setStatusNow s now) store) num
      = (findByNumber store num).map (setStatusNow s now) :=
  find?_updateFirst (numMatch num) (setStatusNow s now)
    (setStatusNow_keeps_number s now num) store

theorem cacheGet_cacheDelete (c : Cache) (k : String) :
    cacheGet (cacheDelete c k) k = none := by
  unfold cacheGet cacheDelete
  rw [Option.map_eq_none', List.find?_eq_none]
  intro e he
  have h2 := (List.mem_filter.mp he).2
  simp only [bne_iff_ne, ne_eq] at h2
  simp only [beq_iff_eq]
  exact h2

/-! ### Lemmas about the worker's processing of one task -/

theorem process_order_found (store : List Order) (i now : Nat)
    (h : (findById store i).isSome) :
    process_order store i now =
      (updateFirst (idMatch i) (setStatusNow OrderStatus.CONFIRMED now)
        (updateFirst (idMatch i) (setStatusNow OrderStatus.PROCESSING now) store),
       true) := by
  obtain ⟨o, ho⟩ := Option.isSome_iff_exists.mp h
  unfold process_order
  rw [ho]
  rfl

theorem process_order_found_collapse (store : List Order) (i now : Nat)
    (h : (findById store i).isSome) :
    process_order store i now =
      (updateFirst (idMatch i) (setStatusNow OrderStatus.CONFIRMED now) store,
       true) := by
  rw [process_order_found store i now h,
    updateFirst_comp (idMatch i) _ _ (setStatusNow_keeps_id _ now i)]
  rfl

theorem callback_task_found (store : List Order) (t : TaskMessage) (now : Nat)
    (h : (findById store t.order_id).isSome) :
    callback store (QueueBody.task t) now =
      (updateFirst (idMatch t.order_id)
        (setStatusNow OrderStatus.CONFIRMED now) store, AckAction.ack) := by
  have hp := process_order_found_collapse store t.order_id now h
  simp [callback, hp]

theorem statusOfId_after_confirm (store : List Order) (i now : Nat)
    (h : (findById store i).isSome) :
    statusOfId
      (updateFirst (idMatch i) (setStatusNow OrderStatus.CONFIRMED now) store) i
      = some OrderStatus.CONFIRMED := by
  obtain ⟨o, ho⟩ := Option.isSome_iff_exists.mp h
  unfold statusOfId
  rw [findById_updateFirst, ho]
  rfl

theorem findById_after_confirm_isSome (store : List Order) (i now : Nat)
    (h : (findById store i).isSome) :
    (findById
      (updateFirst (idMatch i) (setStatusNow OrderStatus.CONFIRMED now) store)
      i).isSome := by
  rw [findById_updateFirst, Option.isSome_map']
  exact h

theorem deliver_task_found (store : List Order) (t : TaskMessage) (now : Nat)
    (h : (findById store t.order_id).isSome) :
    ∀ n : Nat,
      deliver store (QueueBody.task t) now (n + 1) =
        updateFirst (idMatch t.order_id)
          (setStatusNow OrderStatus.CONFIRMED now) store := by
  intro n
  induction n with
  | zero =>
    show (callback (deliver store (QueueBody.task t) now 0)
      (QueueBody.task t) now).1 = _
    rw [show deliver store (QueueBody.task t) now 0 = store from rfl,
      callback_task_found store t now h]
  | succ n ih =>
    show (callback (deliver store (QueueBody.task t) now (n + 1))
      (QueueBody.task t) now).1 = _
    rw [ih, callback_task_found _ t now (findById_after_confirm_isSome store _ now h),
      updateFirst_comp (idMatch t.order_id) _ _ (setStatusNow_keeps_id _ now _)]
    rfl

theorem deliver_notfound (store : List Order) (t : TaskMessage) (now : Nat)
    (h : findById store t.order_id = none) :
    ∀ n : Nat, deliver store (QueueBody.task t) now n = store := by
  intro n
  induction n with
  | zero => rfl
  | succ n ih =>
    show (callback (deliver store (QueueBody.task t) now n)
      (QueueBody.task t) now).1 = _
    rw [ih]
    simp [callback, process_order, h]

theorem nthAction_notfound (store : List Order) (t : TaskMessage) (now : Nat)
    (h : findById store t.order_id = none) (n : Nat) :
    nthAction store (QueueBody.task t) now n = AckAction.nack_requeue := by
  unfold nthAction
  rw [deliver_notfound store t now h n]
  simp [callback, process_order, h]

end FoodOrdering

namespace FoodOrdering

/-! ### Concrete sample data used by witnesses and counterexamples -/

/-- A persisted PENDING order, as left behind by the producer. -/
def demoOrder : Order :=
  { id := 1, order_number := "ORD-1", customer_name := "Jo",
    customer_email := "jo@example.com", customer_phone := none,
    delivery_address := none, items := [], subtotal := 2197/100,
    tax := 44/25, total := 2373/100, status := OrderStatus.PENDING,
    notes := none, created_at := 0, updated_at := 0 }

/-- The confirmation task the producer publishes for `demoOrder`. -/
def demoTask : TaskMessage :=
  { order_id := 1, order_number := "ORD-1",
    customer_email := "jo@example.com", total := 2373/100 }

/-- An order that has already been cancelled. -/
def demoCancelled : Order :=
  { demoOrder with
    id := 7,
    order_number := "ORD-7",
    status := OrderStatus.CANCELLED }

/-- An order that has already been delivered. -/
def demoDelivered : Order :=
  { demoOrder with
    id := 8,
    order_number := "ORD-8",
    status := OrderStatus.DELIVERED }

/-- A confirmation task whose order id matches nothing in the store. -/
def demoOrphanTask : TaskMessage :=
  { order_id := 99, order_number := "ORD-GONE",
    customer_email := "gone@example.com", total := 5 }

/-! ### Claims about the worker -/

/-- C1: duplicate delivery of a confirmation task is idempotent — for a
persisted order, delivering the same task `n + 1` times (each re-delivery
re-reading the order and re-applying the set-to-PROCESSING and
set-to-CONFIRMED writes) produces exactly the state of delivering it once,
and the final status is CONFIRMED. -/
theorem confirmation_redelivery_idempotent (store : List Order)
    (t : TaskMessage) (now n : Nat) (h : (findById store t.order_id).isSome) :
    deliver store (QueueBody.task t) now (n + 1) =
      deliver store (QueueBody.task t) now 1 ∧
    statusOfId (deliver store (QueueBody.task t) now (n + 1)) t.order_id =
      some OrderStatus.CONFIRMED := by
  have h1 := deliver_task_found store t now h n
  have h0 := deliver_task_found store t now h 0
  constructor
  · rw [h1, h0]
  · rw [h1]
    exact statusOfId_after_confirm store t.order_id now h

theorem confirmation_redelivery_idempotent_witness :
    (findById [demoOrder] demoTask.order_id).isSome ∧
    (deliver [demoOrder] (QueueBody.task demoTask) 5 (2 + 1) =
       deliver [demoOrder] (QueueBody.task demoTask) 5 1 ∧
     statusOfId (deliver [demoOrder] (QueueBody.task demoTask) 5 (2 + 1))
       demoTask.order_id = some OrderStatus.CONFIRMED) :=
  ⟨by decide, confirmation_redelivery_idempotent [demoOrder] demoTask 5 2 (by decide)⟩

/-- C2 counterexample: the worker does move an order out of CANCELLED — on a
store holding an already-cancelled order, processing a confirmation task for
it ends with that order CONFIRMED, refuting "it never takes a CANCELLED or
DELIVERED order to PROCESSING or CONFIRMED". -/
theorem worker_confirms_cancelled_order :
    demoCancelled.status = OrderStatus.CANCELLED ∧
    statusOfId (process_order [demoCancelled] 7 1).1 7 =
      some OrderStatus.CONFIRMED := by decide

/-- C2 amended: the worker's writes on a found order are unconditionally
set-to-PROCESSING then set-to-CONFIRMED — it performs exactly those two
status writes, but regardless of the order's prior status (a CANCELLED or
DELIVERED order is moved to PROCESSING and then CONFIRMED like any other). -/
theorem worker_overwrites_any_status (store : List Order) (i now : Nat)
    (h : (findById store i).isSome) :
    process_order store i now =
      (updateFirst (idMatch i) (setStatusNow OrderStatus.CONFIRMED now)
        (updateFirst (idMatch i) (setStatusNow OrderStatus.PROCESSING now)
          store),
       true) ∧
    statusOfId (process_order store i now).1 i = some OrderStatus.CONFIRMED := by
  refine ⟨process_order_found store i now h, ?_⟩
  rw [process_order_found_collapse store i now h]
  exact statusOfId_after_confirm store i now h

theorem worker_overwrites_any_status_witness :
    (findById [demoDelivered] 8).isSome ∧
    (process_order [demoDelivered] 8 2 =
       (updateFirst (idMatch 8) (setStatusNow OrderStatus.CONFIRMED 2)
         (updateFirst (idMatch 8) (setStatusNow OrderStatus.PROCESSING 2)
           [demoDelivered]),
        true) ∧
     statusOfId (process_order [demoDelivered] 8 2).1 8 =
       some OrderStatus.CONFIRMED) :=
  ⟨by decide, worker_overwrites_any_status [demoDelivered] 8 2 (by decide)⟩

/-- C6 counterexample: a task for an order id absent from the store is never
discarded — every delivery is NACKed with `requeue=True`, so there is no
bound after which the worker removes it from the queue. -/
theorem missing_order_task_never_discarded :
    neverDiscarded [] (QueueBody.task demoOrphanTask) 0 :=
  fun n => nthAction_notfound [] demoOrphanTask 0 rfl n

/-- C6 amended: for every confirmation task whose order id matches no order
in the store, each delivery leaves the store unchanged and is NACKed with
`requeue=True`; the worker never ACK-discards such a message, so the broker
may redeliver it without bound. -/
theorem missing_order_task_always_requeued (store : List Order)
    (t : TaskMessage) (now n : Nat) (h : findById store t.order_id = none) :
    deliver store (QueueBody.task t) now n = store ∧
    nthAction store (QueueBody.task t) now n = AckAction.nack_requeue :=
  ⟨deliver_notfound store t now h n, nthAction_notfound store t now h n⟩

theorem missing_order_task_always_requeued_witness :
    findById [demoOrder] demoOrphanTask.order_id = none ∧
    (deliver [demoOrder] (QueueBody.task demoOrphanTask) 3 4 = [demoOrder] ∧
     nthAction [demoOrder] (QueueBody.task demoOrphanTask) 3 4 =
       AckAction.nack_requeue) :=
  ⟨by decide, missing_order_task_always_requeued [demoOrder] demoOrphanTask 3 4
    (by decide)⟩

/-- C8: a queue message whose body fails to parse as JSON is ACKed, removing
it permanently; it is never NACKed or requeued, and the store is
untouched. -/
theorem poison_message_acked (store : List Order) (now : Nat) :
    callback store QueueBody.malformed now = (store, AckAction.ack) := rfl

/-- C10: `send_confirmation_email` unconditionally returns `True`, so the
email-failure branch of `process_order` is unreachable: whenever the task's
order id exists (database errors being external faults outside the model),
the worker commits CONFIRMED and ACKs the message. -/
theorem email_always_succeeds_worker_confirms (store : List Order)
    (t : TaskMessage) (now : Nat) (h : (findById store t.order_id).isSome) :
    send_confirmation_email = true ∧
    (callback store (QueueBody.task t) now).2 = AckAction.ack ∧
    statusOfId (callback store (QueueBody.task t) now).1 t.order_id =
      some OrderStatus.CONFIRMED := by
  refine ⟨rfl, ?_, ?_⟩
  · rw [callback_task_found store t now h]
  · rw [callback_task_found store t now h]
    exact statusOfId_after_confirm store t.order_id now h

theorem email_always_succeeds_worker_confirms_witness :
    (findById [demoOrder] demoTask.order_id).isSome ∧
    (send_confirmation_email = true ∧
     (callback [demoOrder] (QueueBody.task demoTask) 4).2 = AckAction.ack ∧
     statusOfId (callback [demoOrder] (QueueBody.task demoTask) 4).1
       demoTask.order_id = some OrderStatus.CONFIRMED) :=
  ⟨by decide, email_always_succeeds_worker_confirms [demoOrder] demoTask 4
    (by decide)⟩

end FoodOrdering

namespace FoodOrdering

/-! ### Claims about the order service -/

theorem get_order_miss_found (st : ServiceState) (num : String) (o : Order)
    (hmiss : cacheGet st.cache (cacheKey num) = none)
    (hfind : findByNumber st.store num = some o) :
    (get_order st num).2.cached = some false ∧
    (get_order st num).2.order = findByNumber st.store num := by
  unfold get_order
  rw [hmiss, hfind]
  exact ⟨rfl, rfl⟩

/-- C3: every successful status update and every successful cancellation
deletes the cache entry for the order number after the store commit and
before returning, so a read issued against the post-mutation state never
sees the pre-update cached snapshot: the key is gone and `get_order` misses
and reads the store. -/
theorem mutation_invalidates_cache (st : ServiceState) (num : String)
    (s : OrderStatus) (now : Nat) :
    ((update_order_status st num s now).2.code = 200 →
      cacheGet (update_order_status st num s now).1.cache (cacheKey num) =
        none ∧
      (get_order (update_order_status st num s now).1 num).2.cached =
        some false ∧
      (get_order (update_order_status st num s now).1 num).2.order =
        findByNumber (update_order_status st num s now).1.store num) ∧
    ((cancel_order st num now).2.code = 200 →
      cacheGet (cancel_order st num now).1.cache (cacheKey num) = none ∧
      (get_order (cancel_order st num now).1 num).2.cached = some false ∧
      (get_order (cancel_order st num now).1 num).2.order =
        findByNumber (cancel_order st num now).1.store num) := by
  constructor
  · intro hcode
    cases hf : findByNumber st.store num with
    | none =>
      unfold update_order_status at hcode
      rw [hf] at hcode
      simp at hcode
    | some o =>
      have hupd : update_order_status st num s now =
          ({ store := updateFirst (numMatch num) (setStatusNow s now) st.store,
             cache := cacheDelete st.cache (cacheKey num) },
           { code := 200, message := some "Order status updated",
             order := some (setStatusNow s now o) }) := by
        unfold update_order_status
        rw [hf]
      rw [hupd]
      have hmiss := cacheGet_cacheDelete st.cache (cacheKey num)
      have hfind : findByNumber
          (updateFirst (numMatch num) (setStatusNow s now) st.store) num =
          some (setStatusNow s now o) := by
        rw [findByNumber_updateFirst, hf]
        rfl
      have hg := get_order_miss_found
        ⟨updateFirst (numMatch num) (setStatusNow s now) st.store,
         cacheDelete st.cache (cacheKey num)⟩ num (setStatusNow s now o)
        hmiss hfind
      exact ⟨hmiss, hg.1, hg.2⟩
  · intro hcode
    cases hf : findByNumber st.store num with
    | none =>
      unfold cancel_order at hcode
      rw [hf] at hcode
      simp at hcode
    | some o =>
      by_cases hterm : o.status = OrderStatus.DELIVERED ∨
          o.status = OrderStatus.CANCELLED
      · simp only [cancel_order, hf] at hcode
        rw [if_pos hterm] at hcode
        simp at hcode
      · have hcanc : cancel_order st num now =
            ({ store := updateFirst (numMatch num)
                 (setStatusNow OrderStatus.CANCELLED now) st.store,
               cache := cacheDelete st.cache (cacheKey num) },
             { code := 200, message := some "Order cancelled successfully" }) := by
          simp only [cancel_order, hf]
          rw [if_neg hterm]
        rw [hcanc]
        have hmiss := cacheGet_cacheDelete st.cache (cacheKey num)
        have hfind : findByNumber
            (updateFirst (numMatch num) (setStatusNow OrderStatus.CANCELLED now)
              st.store) num =
            some (setStatusNow OrderStatus.CANCELLED now o) := by
          rw [findByNumber_updateFirst, hf]
          rfl
        have hg := get_order_miss_found
          ⟨updateFirst (numMatch num) (setStatusNow OrderStatus.CANCELLED now)
             st.store,
           cacheDelete st.cache (cacheKey num)⟩ num
          (setStatusNow OrderStatus.CANCELLED now o) hmiss hfind
        exact ⟨hmiss, hg.1, hg.2⟩

/-- A service state holding `demoOrder` plus a (pre-update) cached snapshot
of it, as after a prior read. -/
def demoState : ServiceState :=
  { store := [demoOrder], cache := [(cacheKey "ORD-1", demoOrder)] }

theorem mutation_invalidates_cache_witness :
    (update_order_status demoState "ORD-1" OrderStatus.CONFIRMED 9).2.code =
      200 ∧
    (cancel_order demoState "ORD-1" 9).2.code = 200 ∧
    (cacheGet (update_order_status demoState "ORD-1" OrderStatus.CONFIRMED
        9).1.cache (cacheKey "ORD-1") = none ∧
     (get_order (update_order_status demoState "ORD-1" OrderStatus.CONFIRMED
        9).1 "ORD-1").2.cached = some false ∧
     (get_order (update_order_status demoState "ORD-1" OrderStatus.CONFIRMED
        9).1 "ORD-1").2.order =
       findByNumber (update_order_status demoState "ORD-1"
         OrderStatus.CONFIRMED 9).1.store "ORD-1") ∧
    (cacheGet (cancel_order demoState "ORD-1" 9).1.cache (cacheKey "ORD-1") =
       none ∧
     (get_order (cancel_order demoState "ORD-1" 9).1 "ORD-1").2.cached =
       some false ∧
     (get_order (cancel_order demoState "ORD-1" 9).1 "ORD-1").2.order =
       findByNumber (cancel_order demoState "ORD-1" 9).1.store "ORD-1") :=
  ⟨by decide, by decide,
   (mutation_invalidates_cache demoState "ORD-1" OrderStatus.CONFIRMED 9).1
     (by decide),
   (mutation_invalidates_cache demoState "ORD-1" OrderStatus.CONFIRMED 9).2
     (by decide)⟩

/-- C4: when validation passes and pricing succeeds, order creation commits
the order and returns 201 whatever the publish outcome: the `queued` flag
reports the outcome, the persisted order is appended to the store (not
rolled back) and its status is PENDING. -/
theorem publish_failure_nonfatal (st : ServiceState) (data : CreateRequest)
    (publish_ok : Bool) (num : String) (next_id now : Nat)
    (h1 : data.customer_name ≠ "") (h2 : data.customer_email ≠ "")
    (h3 : data.items ≠ []) (h4 : (calculate_price data.items).isSome) :
    (create_order st data publish_ok num next_id now).2.code = 201 ∧
    (create_order st data publish_ok num next_id now).2.queued =
      some publish_ok ∧
    ((create_order st data publish_ok num next_id now).2.order.map
      (fun o => o.status)) = some OrderStatus.PENDING ∧
    (create_order st data publish_ok num next_id now).1.store =
      st.store ++
        ((create_order st data publish_ok num next_id now).2.order).toList := by
  obtain ⟨r, hr⟩ := Option.isSome_iff_exists.mp h4
  have hval : ¬(data.customer_name = "" ∨ data.customer_email = "" ∨
      data.items = []) := by
    intro hcontra
    rcases hcontra with hh | hh | hh
    · exact h1 hh
    · exact h2 hh
    · exact h3 hh
  unfold create_order
  rw [if_neg hval, hr]
  exact ⟨rfl, rfl, rfl, rfl⟩

/-- The empty initial service state. -/
def demoEmptyState : ServiceState := { store := [], cache := [] }

/-- The create-order request of the spec scenario: two burgers and one order
of fries. -/
def demoRequest : CreateRequest :=
  { customer_name := "Jo", customer_email := "jo@example.com",
    customer_phone := none, delivery_address := none,
    items := [{ item_id := "burger", quantity := 2 },
              { item_id := "fries", quantity := 1 }],
    notes := none }

theorem publish_failure_nonfatal_witness :
    demoRequest.customer_name ≠ "" ∧ demoRequest.customer_email ≠ "" ∧
    demoRequest.items ≠ [] ∧ (calculate_price demoRequest.items).isSome ∧
    ((create_order demoEmptyState demoRequest false "ORD-X" 1 0).2.code =
       201 ∧
     (create_order demoEmptyState demoRequest false "ORD-X" 1 0).2.queued =
       some false ∧
     ((create_order demoEmptyState demoRequest false "ORD-X" 1 0).2.order.map
       (fun o => o.status)) = some OrderStatus.PENDING ∧
     (create_order demoEmptyState demoRequest false "ORD-X" 1 0).1.store =
       demoEmptyState.store ++
         ((create_order demoEmptyState demoRequest false "ORD-X" 1
           0).2.order).toList) :=
  ⟨by decide, by decide, by decide, by decide,
   publish_failure_nonfatal demoEmptyState demoRequest false "ORD-X" 1 0
     (by decide) (by decide) (by decide) (by decide)⟩

/-- C5: cancelling an existing order whose status is DELIVERED or CANCELLED
returns a 400 domain error and leaves the whole state unchanged; cancelling
an existing order in any other status succeeds with 200 and moves its status
to CANCELLED. -/
theorem cancel_terminal_rejected_else_cancelled (st : ServiceState)
    (num : String) (now : Nat) (o : Order)
    (h : findByNumber st.store num = some o) :
    (o.status = OrderStatus.DELIVERED ∨ o.status = OrderStatus.CANCELLED →
      (cancel_order st num now).2.code = 400 ∧
      ((cancel_order st num now).2.error).isSome ∧
      (cancel_order st num now).1 = st) ∧
    (¬(o.status = OrderStatus.DELIVERED ∨ o.status = OrderStatus.CANCELLED) →
      (cancel_order st num now).2.code = 200 ∧
      statusOfNumber (cancel_order st num now).1.store num =
        some OrderStatus.CANCELLED) := by
  constructor
  · intro hterm
    have hc : cancel_order st num now =
        (st, { code := 400,
               error := some ("Cannot cancel order with status: "
                 ++ statusValue o.status) }) := by
      simp only [cancel_order, h]
      rw [if_pos hterm]
    rw [hc]
    exact ⟨rfl, rfl, rfl⟩
  · intro hterm
    have hc : cancel_order st num now =
        ({ store := updateFirst (numMatch num)
             (setStatusNow OrderStatus.CANCELLED now) st.store,
           cache := cacheDelete st.cache (cacheKey num) },
         { code := 200, message := some "Order cancelled successfully" }) := by
      simp only [cancel_order, h]
      rw [if_neg hterm]
    rw [hc]
    refine ⟨rfl, ?_⟩
    unfold statusOfNumber
    rw [findByNumber_updateFirst, h]
    rfl

/-- A service state holding only the delivered order. -/
def demoTerminalState : ServiceState := { store := [demoDelivered], cache := [] }

/-- A service state holding only the pending order, with an empty cache. -/
def demoPlainState : ServiceState := { store := [demoOrder], cache := [] }

theorem cancel_terminal_rejected_else_cancelled_witness :
    findByNumber demoTerminalState.store "ORD-8" = some demoDelivered ∧
    (demoDelivered.status = OrderStatus.DELIVERED ∨
      demoDelivered.status = OrderStatus.CANCELLED) ∧
    ((cancel_order demoTerminalState "ORD-8" 4).2.code = 400 ∧
     ((cancel_order demoTerminalState "ORD-8" 4).2.error).isSome ∧
     (cancel_order demoTerminalState "ORD-8" 4).1 = demoTerminalState) ∧
    findByNumber demoPlainState.store "ORD-1" = some demoOrder ∧
    ¬(demoOrder.status = OrderStatus.DELIVERED ∨
      demoOrder.status = OrderStatus.CANCELLED) ∧
    ((cancel_order demoPlainState "ORD-1" 4).2.code = 200 ∧
     statusOfNumber (cancel_order demoPlainState "ORD-1" 4).1.store "ORD-1" =
       some OrderStatus.CANCELLED) :=
  ⟨by decide, by decide,
   (cancel_terminal_rejected_else_cancelled demoTerminalState "ORD-8" 4
     demoDelivered (by decide)).1 (by decide),
   by decide, by decide,
   (cancel_terminal_rejected_else_cancelled demoPlainState "ORD-1" 4
     demoOrder (by decide)).2 (by decide)⟩

/-- C9 counterexample: a successful cancellation does not return the updated
order — the response body of `cancel_order` carries only a message, its
`order` field is absent even though the call succeeded with 200. -/
theorem cancel_response_has_no_order :
    (cancel_order demoPlainState "ORD-1" 3).2.code = 200 ∧
    (cancel_order demoPlainState "ORD-1" 3).2.order = none := by decide

/-- C9 amended: a successful update-status returns the updated order record
(reflecting the new status) in its response, but cancel never returns the
order record in its response body — in every outcome, success included, its
`order` field is absent. -/
theorem update_returns_order_cancel_does_not (st : ServiceState)
    (num : String) (s : OrderStatus) (now : Nat) (o : Order)
    (h : findByNumber st.store num = some o) :
    ((update_order_status st num s now).2.code = 200 ∧
     (update_order_status st num s now).2.order =
       some (setStatusNow s now o)) ∧
    (cancel_order st num now).2.order = none := by
  constructor
  · unfold update_order_status
    rw [h]
    exact ⟨rfl, rfl⟩
  · by_cases hterm : o.status = OrderStatus.DELIVERED ∨
        o.status = OrderStatus.CANCELLED
    · simp only [cancel_order, h]
      rw [if_pos hterm]
    · simp only [cancel_order, h]
      rw [if_neg hterm]

theorem update_returns_order_cancel_does_not_witness :
    findByNumber demoPlainState.store "ORD-1" = some demoOrder ∧
    (((update_order_status demoPlainState "ORD-1" OrderStatus.PREPARING
        6).2.code = 200 ∧
      (update_order_status demoPlainState "ORD-1" OrderStatus.PREPARING
        6).2.order = some (setStatusNow OrderStatus.PREPARING 6 demoOrder)) ∧
     (cancel_order demoPlainState "ORD-1" 6).2.order = none) :=
  ⟨by decide,
   update_returns_order_cancel_does_not demoPlainState "ORD-1"
     OrderStatus.PREPARING 6 demoOrder (by decide)⟩

end FoodOrdering

namespace FoodOrdering

/-! ### Rounding arithmetic for the pricing invariant -/

theorem roundHalfEven_intCast (n : ℤ) : roundHalfEven ((n : ℚ)) = n := by
  norm_num [roundHalfEven, Int.fract_intCast, Int.floor_intCast]

theorem roundHalfEven_int_add (n : ℤ) (x : ℚ) (h : Int.fract x ≠ 1/2) :
    roundHalfEven ((n : ℚ) + x) = n + roundHalfEven x := by
  unfold roundHalfEven
  rw [Int.fract_int_add, Int.floor_int_add]
  rcases lt_trichotomy (Int.fract x) (1/2 : ℚ) with hlt | heq | hgt
  · rw [if_pos hlt, if_pos hlt]
  · exact absurd heq h
  · have h1 : ¬ Int.fract x < 1/2 := not_lt.mpr (le_of_lt hgt)
    rw [if_neg h1, if_neg h1, if_pos hgt, if_pos hgt]
    ring

theorem fract_eight_percent_ne_half (m : ℕ) :
    Int.fract ((2 * (m : ℚ))/25) ≠ 1/2 := by
  intro htie
  have hfl : ((2 * (m : ℚ))/25) - ⌊(2 * (m : ℚ))/25⌋ = 1/2 := by
    rw [Int.self_sub_floor]
    exact htie
  have h4 : (4 * (m : ℚ)) = 50 * ((⌊(2 * (m : ℚ))/25⌋ : ℤ) : ℚ) + 25 := by
    linarith
  have h5 : (4 * (m : ℤ)) = 50 * ⌊(2 * (m : ℚ))/25⌋ + 25 := by
    exact_mod_cast h4
  omega

theorem menu_price_cents (s : String) (mi : MenuItem)
    (h : menuLookup s = some mi) : ∃ k : ℕ, mi.price = (k : ℚ)/100 := by
  unfold menuLookup at h
  obtain ⟨e, he, hmi⟩ := Option.map_eq_some'.mp h
  have hmem : e ∈ MENU_ITEMS := List.mem_of_find?_eq_some he
  subst hmi
  simp only [MENU_ITEMS, List.mem_cons, List.not_mem_nil, or_false] at hmem
  rcases hmem with rfl | rfl | rfl | rfl | rfl | rfl | rfl | rfl
  · exact ⟨899, by norm_num⟩
  · exact ⟨1299, by norm_num⟩
  · exact ⟨1099, by norm_num⟩
  · exact ⟨699, by norm_num⟩
  · exact ⟨399, by norm_num⟩
  · exact ⟨249, by norm_num⟩
  · exact ⟨199, by norm_num⟩
  · exact ⟨599, by norm_num⟩

theorem calc_total_cents (reqs : List ItemReq) :
    ∀ t det, calcItems reqs = some (t, det) → ∃ m : ℕ, t = (m : ℚ)/100 := by
  induction reqs with
  | nil =>
    intro t det h
    simp only [calcItems, Option.some_inj, Prod.mk.injEq] at h
    exact ⟨0, by rw [← h.1]; norm_num⟩
  | cons req rest ih =>
    intro t det h
    cases hm : menuLookup req.item_id with
    | none => simp [calcItems, hm] at h
    | some mi =>
      cases hr : calcItems rest with
      | none => simp [calcItems, hm, hr] at h
      | some td =>
        obtain ⟨t2, det2⟩ := td
        simp only [calcItems, hm, hr, Option.some_inj, Prod.mk.injEq] at h
        obtain ⟨k, hk⟩ := menu_price_cents req.item_id mi hm
        obtain ⟨m2, hm2⟩ := ih t2 det2 hr
        refine ⟨k * req.quantity + m2, ?_⟩
        rw [← h.1, hk, hm2]
        push_cast
        ring

theorem pricing_additive (reqs : List ItemReq) (r : PricingResult)
    (h : calculate_price reqs = some r) : r.total = r.subtotal + r.tax := by
  cases hc : calcItems reqs with
  | none => simp [calculate_price, hc] at h
  | some td =>
    obtain ⟨t, det⟩ := td
    simp only [calculate_price, hc, Option.some_inj] at h
    obtain ⟨m, hm⟩ := calc_total_cents reqs t det hc
    subst h
    subst hm
    show round2 ((m : ℚ)/100 + (m : ℚ)/100 * (8/100)) =
      round2 ((m : ℚ)/100) + round2 ((m : ℚ)/100 * (8/100))
    unfold round2
    rw [show (100 : ℚ) * ((m : ℚ)/100 + (m : ℚ)/100 * (8/100)) =
        (((m : ℤ) : ℚ)) + (2 * (m : ℚ))/25 from by push_cast; ring]
    rw [show (100 : ℚ) * ((m : ℚ)/100) = (((m : ℤ) : ℚ)) from by
      push_cast; ring]
    rw [show (100 : ℚ) * ((m : ℚ)/100 * (8/100)) = (2 * (m : ℚ))/25 from by
      ring]
    rw [roundHalfEven_int_add (m : ℤ) ((2 * (m : ℚ))/25)
      (fract_eight_percent_ne_half m)]
    rw [roundHalfEven_intCast]
    push_cast
    ring

/-- C7: an order created from a successful pricing response satisfies
`total = subtotal + tax`, where the pricing response rounds the item-total,
the 8% tax on the unrounded item-total, and their unrounded sum to cents
independently. -/
theorem created_order_total_eq_subtotal_add_tax (st : ServiceState)
    (data : CreateRequest) (publish_ok : Bool) (num : String)
    (next_id now : Nat) (o : Order)
    (h : (create_order st data publish_ok num next_id now).2.order = some o) :
    o.total = o.subtotal + o.tax := by
  by_cases hval : data.customer_name = "" ∨ data.customer_email = "" ∨
      data.items = []
  · simp only [create_order, if_pos hval] at h
    simp at h
  · cases hp : calculate_price data.items with
    | none => simp [create_order, if_neg hval, hp] at h
    | some r =>
      simp only [create_order, if_neg hval, hp, Option.some_inj] at h
      subst h
      exact pricing_additive data.items r hp

/-- The order record the spec scenario produces: two burgers and one order
of fries priced at subtotal 21.97, tax 1.76 and total 23.73. -/
def demoCreatedOrder : Order :=
  { id := 1, order_number := "ORD-X", customer_name := "Jo",
    customer_email := "jo@example.com", customer_phone := none,
    delivery_address := none,
    items := [{ item_id := "burger", name := "Classic Burger", quantity := 2,
                unit_price := 899/100, subtotal := 899/50 },
              { item_id := "fries", name := "French Fries", quantity := 1,
                unit_price := 399/100, subtotal := 399/100 }],
    subtotal := 2197/100, tax := 44/25, total := 2373/100,
    status := OrderStatus.PENDING, notes := none, created_at := 0,
    updated_at := 0 }

theorem created_order_total_eq_subtotal_add_tax_witness :
    (create_order demoEmptyState demoRequest true "ORD-X" 1 0).2.order =
      some demoCreatedOrder ∧
    demoCreatedOrder.total = demoCreatedOrder.subtotal + demoCreatedOrder.tax :=
  ⟨by decide,
   created_order_total_eq_subtotal_add_tax demoEmptyState demoRequest true
     "ORD-X" 1 0 demoCreatedOrder (by decide)⟩

end FoodOrdering
